import Mathlib

/-!
Verification of the AAAI capture tool against its specification.

This file shallowly embeds the two core subsystems of the repository:

* `src/keyboard_listener.py` — the trigger detection engine
  (`KeyboardListener._clean_old_timestamps`, `_check_trigger`,
  `_on_key_press`).  Timestamps are modelled as rationals, one sliding
  window per trigger kind; the two wall-clock reads made during a single
  key-press (one in `_on_key_press`, a second inside
  `_clean_old_timestamps`) are surfaced as two explicit parameters.

* `src/llm_manager.py` — the multi-provider analysis gateway
  (`LLMManager.process_text` / `process_image`, the per-provider adapters
  `_call_ollama` / `_call_openai` / `_call_claude` / `_call_doubao` /
  `_call_custom_api`, and the availability checks).  External effects
  (file reads, HTTP, vendor SDKs, environment variables) are supplied by
  a `World` of oracles; Python exceptions are modelled by `Option` /
  `Except` results, with every `try`/`except` block translated into an
  explicit catch that yields `none`.
-/

namespace AAAI

/-! ## Trigger detection engine (`src/keyboard_listener.py`) -/

/-- Result of one key event: the window contents after the event and
whether a callback thread was spawned (a "fire"). -/
structure TriggerStep where
  window : List ℚ
  fired : Bool
deriving DecidableEq, Repr

/-- `KeyboardListener._clean_old_timestamps` (lines 29-32):
`[t for t in timestamps if current_time - t <= self.trigger_timeout]`.
The `current_time` here is the value of the `time.time()` call made
*inside* the method (line 31); it is surfaced as a parameter. -/
def clean_old_timestamps (trigger_timeout : ℚ) (current_time : ℚ)
    (timestamps : List ℚ) : List ℚ :=
  timestamps.filter (fun t => decide (current_time - t ≤ trigger_timeout))

/-- `KeyboardListener._check_trigger` (lines 34-40):
`if len(timestamps) >= self.trigger_count and callback:` then the list is
cleared and the callback is started on a fresh thread.  `has_callback`
models the truthiness of the callback slot (`None` ⇒ `false`). -/
def check_trigger (trigger_count : ℕ) (has_callback : Bool)
    (timestamps : List ℚ) : TriggerStep :=
  if trigger_count ≤ timestamps.length ∧ has_callback = true then
    ⟨[], true⟩
  else
    ⟨timestamps, false⟩

/-- One branch of `KeyboardListener._on_key_press` (lines 42-61) for a
single kind: clean with the *second* clock read `purge_time` (the
`time.time()` inside `_clean_old_timestamps`), append the *first* clock
read `event_time` (the `current_time` of line 44), then check the
trigger.  In the source the purge read happens after the event read, so
`event_time ≤ purge_time` in any real execution. -/
def on_key_event (trigger_count : ℕ) (trigger_timeout : ℚ)
    (has_callback : Bool) (purge_time event_time : ℚ)
    (w : List ℚ) : TriggerStep :=
  check_trigger trigger_count has_callback
    (clean_old_timestamps trigger_timeout purge_time w ++ [event_time])

/-- Sequential idealisation of one key press: both clock reads of
`_on_key_press` return the same instant `t` (no delay between line 44
and line 31). -/
def on_event (trigger_count : ℕ) (trigger_timeout : ℚ)
    (has_callback : Bool) (t : ℚ) (w : List ℚ) : TriggerStep :=
  on_key_event trigger_count trigger_timeout has_callback t t w

/-- Feed a stream of same-kind key events (sequential idealisation)
through the engine, collecting the per-event fire flags and the final
window. -/
def run_trigger (trigger_count : ℕ) (trigger_timeout : ℚ)
    (has_callback : Bool) : List ℚ → List ℚ → List Bool × List ℚ
  | [], w => ([], w)
  | t :: ts, w =>
    let r := on_event trigger_count trigger_timeout has_callback t w
    let rest := run_trigger trigger_count trigger_timeout has_callback ts r.window
    (r.fired :: rest.1, rest.2)

/-! ## Multi-provider analysis gateway (`src/llm_manager.py`)

The Python code reads a nested configuration dictionary, reaches the
filesystem (image encoding), the network (`requests`), vendor SDKs and
the process environment.  The embedding gives the configuration as
structures with `Option` fields (a missing dictionary key is `none`),
and gathers every external effect into a `World` of oracles.  Python
exceptions are modelled by `Option`/`Except`: a code path that raises
inside a `try` block evaluates to the `except` handler's value. -/

/-- Python truthiness of a `str`-or-`None` value: `None` and `''` are
falsy, every other string is truthy. -/
def pyTruthyStr : Option String → Bool
  | none => false
  | some s => decide (s ≠ "")

/-- Python `a or b` on `str`-or-`None` values: `b` when `a` is falsy. -/
def pyOrStr (a b : Option String) : Option String :=
  if pyTruthyStr a then a else b

/-- JSON values, as produced by `response.json()` / `json.load`. -/
inductive JVal where
  | jnull
  | jbool (b : Bool)
  | jnum (n : Int)
  | jstr (s : String)
  | jarr (xs : List JVal)
  | jobj (fields : List (String × JVal))

/-- A Python `return v` from a function annotated `Optional[str]`:
returning the JSON null (Python `None`) is the absent result. -/
def pyRet : JVal → Option JVal
  | .jnull => none
  | v => some v

/-- `result.get('response', '')` followed by `return` in `_call_ollama`
(line 53).  A non-dict JSON body makes `.get` raise (caught upstream,
modelled as `none`). -/
def ollama_extract : JVal → Option JVal
  | .jobj fs => pyRet ((List.lookup "response" fs).getD (JVal.jstr ""))
  | _ => none

/-- `result.get('choices', [{}])[0].get('message', {}).get('content', '')`
in `_call_custom_api` (line 267).  Indexing an empty `choices` list or
`.get` on a non-dict raises (caught upstream, modelled as `none`). -/
def custom_extract : JVal → Option JVal
  | .jobj fs =>
    match (List.lookup "choices" fs).getD (JVal.jarr [JVal.jobj []]) with
    | .jarr xs =>
      match xs.head? with
      | some (.jobj efs) =>
        match (List.lookup "message" efs).getD (JVal.jobj []) with
        | .jobj mfs => pyRet ((List.lookup "content" mfs).getD (JVal.jstr ""))
        | _ => none
      | _ => none
    | _ => none
  | _ => none

/-- One block of a multimodal chat message. -/
inductive ContentBlock where
  | text (s : String)
  | image_url (url : String)
  | image_b64 (media_type : String) (data : String)
deriving DecidableEq, Repr

/-- The `content` of a chat message: a plain string or a block list. -/
inductive MsgContent where
  | str (s : String)
  | blocks (bs : List ContentBlock)
deriving DecidableEq, Repr

/-- A chat message (`{'role': ..., 'content': ...}`). -/
structure Message where
  role : String
  content : MsgContent
deriving DecidableEq, Repr

def ContentBlock.isImage : ContentBlock → Bool
  | .text _ => false
  | .image_url _ => true
  | .image_b64 _ _ => true

def MsgContent.imageCount : MsgContent → Nat
  | .str _ => 0
  | .blocks bs => (bs.filter ContentBlock.isImage).length

/-- Number of image blocks in an outgoing message list. -/
def messagesImageCount (ms : List Message) : Nat :=
  (ms.map (fun m => m.content.imageCount)).sum

/-- One provider's sub-dictionary of the `llm` configuration.  A `none`
field models a missing dictionary key (reading it with `[...]` raises
`KeyError`; reading it with `.get` yields the default). -/
structure ProviderConf where
  base_url : Option String := none
  api_url : Option String := none
  api_key : Option String := none
  timeout : Option Nat := none
  extra_headers : Option (List (String × String)) := none

/-- A role sub-dictionary (`text_model` / `vision_model`). -/
structure RoleConf where
  provider : Option String := none
  model : Option String := none
  prompt : Option String := none

/-- The `llm` configuration dictionary.  `custom p` is the dictionary
lookup `llm_config.get(p, {})` for a provider name `p` outside the
built-in keys (used by `_call_custom_api` and
`_check_custom_api_availability`). -/
structure LLMConf where
  enabled : Bool := false
  text_model : RoleConf := {}
  vision_model : RoleConf := {}
  ollama : ProviderConf := {}
  openai : ProviderConf := {}
  claude : ProviderConf := {}
  doubao : ProviderConf := {}
  custom : String → ProviderConf := fun _ => {}

/-- The JSON payload posted by `_call_ollama` (lines 35-45): `images` is
present only when an image was supplied and encoded successfully. -/
structure OllamaPayload where
  model : String
  prompt : String
  stream : Bool
  images : Option (List String)
deriving DecidableEq, Repr

/-- The JSON payload posted by `_call_custom_api` (lines 234-259). -/
structure CustomPayload where
  model : String
  messages : List Message
deriving DecidableEq, Repr

/-- Outcome of one `requests.post`/`requests.get`: a raised transport
error (connection failure, timeout), or a response with a status code
and a JSON body (`none` body = `response.json()` raised). -/
inductive HttpResult where
  | err
  | resp (status : Nat) (body : Option JVal)

/-- Oracles for every external effect of `llm_manager.py`:
`enc path` is the result of `_encode_image_to_base64` (lines 21-28,
`none` = read/encode failure); the `…Net` fields are `requests` calls
keyed by URL, timeout (and headers/payload); the `…Sdk` fields return
the first textual content field extracted from the vendor SDK response
(`.error` = any exception raised during the SDK call or field access);
`ark_api_key` is `os.environ.get('ARK_API_KEY')`. -/
structure World where
  enc : String → Option String
  ollamaNet : String → Nat → OllamaPayload → HttpResult
  customNet : String → Nat → List (String × String) → CustomPayload → HttpResult
  openaiSdk : String → Option String → String → List Message → Except Unit JVal
  claudeSdk : String → String → List Message → Except Unit JVal
  doubaoSdk : String → String → List (String × String) → String → List Message →
    Except Unit JVal
  healthGet : String → Nat → HttpResult
  ark_api_key : Option String

/-- A world in which every external call fails and the environment is
empty; used to instantiate theorems at concrete inputs. -/
def worldEmpty : World where
  enc := fun _ => none
  ollamaNet := fun _ _ _ => .err
  customNet := fun _ _ _ _ => .err
  openaiSdk := fun _ _ _ _ => .error ()
  claudeSdk := fun _ _ _ => .error ()
  doubaoSdk := fun _ _ _ _ _ => .error ()
  healthGet := fun _ _ => .err
  ark_api_key := none

/-- Payload construction of `_call_ollama` (lines 35-45): base fields
`model`, `prompt`, `stream = False`; an `images` list with the single
base64 string is added only when `image_path` is truthy and the encode
succeeds. -/
def ollama_build_payload (enc : String → Option String)
    (model prompt : String) (image_path : Option String) : OllamaPayload :=
  let base : OllamaPayload := ⟨model, prompt, false, none⟩
  if pyTruthyStr image_path then
    match enc (image_path.getD "") with
    | some b => { base with images := some [b] }
    | none => base
  else base

/-- Message construction of `_call_openai` (lines 69-91): multimodal
data-URI block on encode success, plain text otherwise. -/
def openai_build_messages (enc : String → Option String)
    (prompt : String) (image_path : Option String) : List Message :=
  if pyTruthyStr image_path then
    match enc (image_path.getD "") with
    | some b => [⟨"user", .blocks [.text prompt,
        .image_url ("data:image/jpeg;base64," ++ b)]⟩]
    | none => [⟨"user", .str prompt⟩]
  else [⟨"user", .str prompt⟩]

/-- Message construction of `_call_claude` (lines 114-138): base64
source block with explicit media type on encode success. -/
def claude_build_messages (enc : String → Option String)
    (prompt : String) (image_path : Option String) : List Message :=
  if pyTruthyStr image_path then
    match enc (image_path.getD "") with
    | some b => [⟨"user", .blocks [.text prompt,
        .image_b64 "image/jpeg" b]⟩]
    | none => [⟨"user", .str prompt⟩]
  else [⟨"user", .str prompt⟩]

/-- Message construction of `_call_doubao` (lines 168-201): URL
passthrough when the path starts with http(s), otherwise base64
data-URI; on encode failure the source appends the plain text message
twice (once in the encode-failure branch, once in the `if image_url`
else branch). -/
def doubao_build_messages (enc : String → Option String)
    (prompt : String) (image_path : Option String) : List Message :=
  if pyTruthyStr image_path then
    let p := image_path.getD ""
    if p.startsWith "http://" || p.startsWith "https://" then
      [⟨"user", .blocks [.text prompt, .image_url p]⟩]
    else
      match enc p with
      | some b => [⟨"user", .blocks [.text prompt,
          .image_url ("data:image/jpeg;base64," ++ b)]⟩]
      | none => [⟨"user", .str prompt⟩, ⟨"user", .str prompt⟩]
  else [⟨"user", .str prompt⟩]

/-- Message construction of `_call_custom_api` (lines 239-259): same
shape as the OpenAI-compatible one. -/
def custom_build_messages (enc : String → Option String)
    (prompt : String) (image_path : Option String) : List Message :=
  if pyTruthyStr image_path then
    match enc (image_path.getD "") with
    | some b => [⟨"user", .blocks [.text prompt,
        .image_url ("data:image/jpeg;base64," ++ b)]⟩]
    | none => [⟨"user", .str prompt⟩]
  else [⟨"user", .str prompt⟩]

/-- `LLMManager._call_ollama` (lines 30-57).  The whole body is a
`try`/`except` returning `None` on any exception: missing
`llm_config['ollama']['base_url']` (`KeyError`), a transport error, a
4xx/5xx status (`raise_for_status`), a non-JSON body, or a non-dict
JSON body.  A 2xx response whose dict body lacks `response` yields the
empty string (`result.get('response', '')`). -/
def call_ollama (cfg : LLMConf) (w : World) (model prompt : String)
    (image_path : Option String) : Option JVal :=
  match cfg.ollama.base_url with
  | none => none
  | some burl =>
    let url := burl ++ "/api/generate"
    let payload := ollama_build_payload w.enc model prompt image_path
    let timeout := cfg.ollama.timeout.getD 60
    match w.ollamaNet url timeout payload with
    | .err => none
    | .resp s body =>
      if 400 ≤ s ∧ s < 600 then none
      else
        match body with
        | none => none
        | some j => ollama_extract j

/-- `LLMManager._call_openai` (lines 59-103).  The client is built from
`llm_config['openai']['api_key']` (a missing key raises, caught by the
`except`); the SDK call and response-field access are the oracle. -/
def call_openai (cfg : LLMConf) (w : World) (model prompt : String)
    (image_path : Option String) : Option JVal :=
  match cfg.openai.api_key with
  | none => none
  | some key =>
    let msgs := openai_build_messages w.enc prompt image_path
    match w.openaiSdk key cfg.openai.base_url model msgs with
    | .error _ => none
    | .ok v => pyRet v

/-- `LLMManager._call_claude` (lines 105-150). -/
def call_claude (cfg : LLMConf) (w : World) (model prompt : String)
    (image_path : Option String) : Option JVal :=
  match cfg.claude.api_key with
  | none => none
  | some key =>
    let msgs := claude_build_messages w.enc prompt image_path
    match w.claudeSdk key model msgs with
    | .error _ => none
    | .ok v => pyRet v

/-- `LLMManager._call_doubao` (lines 152-216): the key is the config
value or the `ARK_API_KEY` environment variable (Python `or`); a falsy
key returns `None` before any call. -/
def call_doubao (cfg : LLMConf) (w : World) (model prompt : String)
    (image_path : Option String) : Option JVal :=
  let api_key := pyOrStr cfg.doubao.api_key w.ark_api_key
  if pyTruthyStr api_key then
    let base_url := cfg.doubao.base_url.getD "https://ark.cn-beijing.volces.com/api/v3"
    let hdrs := cfg.doubao.extra_headers.getD [("x-is-encrypted", "true")]
    let msgs := doubao_build_messages w.enc prompt image_path
    match w.doubaoSdk base_url (api_key.getD "") hdrs model msgs with
    | .error _ => none
    | .ok v => pyRet v
  else none

/-- `LLMManager._call_custom_api` (lines 218-271): provider-keyed config
lookup; returns `None` when URL or key is falsy; posts an
OpenAI-compatible payload with a Bearer header; note the source reads
the timeout from the `ollama` sub-config (line 262). -/
def call_custom_api (cfg : LLMConf) (w : World)
    (provider model prompt : String) (image_path : Option String) : Option JVal :=
  let pc := cfg.custom provider
  if pyTruthyStr pc.api_url = false ∨ pyTruthyStr pc.api_key = false then none
  else
    let url := pc.api_url.getD ""
    let key := pc.api_key.getD ""
    let headers := [("Authorization", "Bearer " ++ key),
      ("Content-Type", "application/json")]
    let payload : CustomPayload := ⟨model, custom_build_messages w.enc prompt image_path⟩
    let timeout := cfg.ollama.timeout.getD 60
    match w.customNet url timeout headers payload with
    | .err => none
    | .resp s body =>
      if 400 ≤ s ∧ s < 600 then none
      else
        match body with
        | none => none
        | some j => custom_extract j

/-- `LLMManager.process_text` (lines 273-304): early `None` when the
feature flag is off; `None` when the text role lacks a truthy provider
or model; prompt built by substituting the content into the template
(Python `str.format` with the single `content` field, modelled as
substring replacement); then a string-keyed dispatch whose final branch
is the generic custom adapter. -/
def process_text (cfg : LLMConf) (w : World) (text : String) : Option JVal :=
  if cfg.enabled = false then none
  else
    let tc := cfg.text_model
    if pyTruthyStr tc.provider = false ∨ pyTruthyStr tc.model = false then none
    else
      let provider := tc.provider.getD ""
      let model := tc.model.getD ""
      let template := tc.prompt.getD "请分析以下内容：\x7bcontent\x7d"
      let prompt := template.replace "\x7bcontent\x7d" text
      if provider = "ollama" then call_ollama cfg w model prompt none
      else if provider = "openai" then call_openai cfg w model prompt none
      else if provider = "claude" then call_claude cfg w model prompt none
      else if provider = "doubao" then call_doubao cfg w model prompt none
      else call_custom_api cfg w provider model prompt none

/-- `LLMManager.process_image` (lines 306-335): like `process_text` but
on the vision role, passing the image path and using the configured
prompt (or the fixed default) verbatim. -/
def process_image (cfg : LLMConf) (w : World) (image_path : String) : Option JVal :=
  if cfg.enabled = false then none
  else
    let vc := cfg.vision_model
    if pyTruthyStr vc.provider = false ∨ pyTruthyStr vc.model = false then none
    else
      let provider := vc.provider.getD ""
      let model := vc.model.getD ""
      let prompt := vc.prompt.getD
        "请分析这张图片中的内容，特别是如果这是一道题目，请提供详细的解答。"
      if provider = "ollama" then call_ollama cfg w model prompt (some image_path)
      else if provider = "openai" then call_openai cfg w model prompt (some image_path)
      else if provider = "claude" then call_claude cfg w model prompt (some image_path)
      else if provider = "doubao" then call_doubao cfg w model prompt (some image_path)
      else call_custom_api cfg w provider model prompt (some image_path)

/-- `LLMManager._check_ollama_availability` (lines 387-399): GET on the
tags endpoint with the health timeout capped at 10s; available iff the
status is 200; any exception yields `False`. -/
def check_ollama_availability (cfg : LLMConf) (w : World) : Bool :=
  let base_url := cfg.ollama.base_url.getD "http://localhost:11434"
  let timeout := cfg.ollama.timeout.getD 60
  let health_timeout := min timeout 10
  match w.healthGet (base_url ++ "/api/tags") health_timeout with
  | .err => false
  | .resp s _ => decide (s = 200)

/-- `LLMManager._check_openai_availability` (lines 401-411): `False` for
a missing/empty key or the literal placeholder, `True` otherwise; no
network call. -/
def check_openai_availability (cfg : LLMConf) : Bool :=
  if pyTruthyStr cfg.openai.api_key = false
      ∨ cfg.openai.api_key = some "your_openai_api_key" then false
  else true

/-- `LLMManager._check_claude_availability` (lines 413-423). -/
def check_claude_availability (cfg : LLMConf) : Bool :=
  if pyTruthyStr cfg.claude.api_key = false
      ∨ cfg.claude.api_key = some "your_claude_api_key" then false
  else true

/-- `LLMManager._check_doubao_availability` (lines 425-438): only a
presence check on the config key or the `ARK_API_KEY` environment
variable — no placeholder comparison; no network call. -/
def check_doubao_availability (cfg : LLMConf) (w : World) : Bool :=
  if pyTruthyStr (pyOrStr cfg.doubao.api_key w.ark_api_key) = false then false
  else true

/-- `LLMManager._check_custom_api_availability` (lines 440-454):
presence of both key and URL in the provider-keyed sub-config. -/
def check_custom_api_availability (cfg : LLMConf) (provider : String) : Bool :=
  let pc := cfg.custom provider
  if pyTruthyStr pc.api_key = false ∨ pyTruthyStr pc.api_url = false then false
  else true

/-- `LLMManager._check_provider_availability` (lines 369-385):
string-keyed dispatch with the custom check as the final branch. -/
def check_provider_availability (cfg : LLMConf) (w : World)
    (provider : String) : Bool :=
  if provider = "ollama" then check_ollama_availability cfg w
  else if provider = "openai" then check_openai_availability cfg
  else if provider = "claude" then check_claude_availability cfg
  else if provider = "doubao" then check_doubao_availability cfg w
  else check_custom_api_availability cfg provider

/-- The provider names referenced by the two roles (`providers_to_check`
in `check_availability`, lines 351-356).  The source collects them into
a set; membership of the two truthy role providers is all that matters
for the universal check below, so a list with possible duplicates is an
equivalent rendering. -/
def referenced_providers (cfg : LLMConf) : List String :=
  (if pyTruthyStr cfg.text_model.provider then [cfg.text_model.provider.getD ""]
    else [])
  ++ (if pyTruthyStr cfg.vision_model.provider then [cfg.vision_model.provider.getD ""]
    else [])

/-- `LLMManager.check_availability` (lines 337-367): `False` when
disabled; otherwise every referenced provider must pass its individual
check. -/
def check_availability (cfg : LLMConf) (w : World) : Bool :=
  if cfg.enabled = false then false
  else (referenced_providers cfg).all (check_provider_availability cfg w)

/-- If the purge instant is within `trigger_timeout` of every stored
timestamp, the purge removes nothing. -/
lemma clean_eq_self (tko t : ℚ) (w : List ℚ) (h : ∀ x ∈ w, t - x ≤ tko) :
    clean_old_timestamps tko t w = w :=
  List.filter_eq_self.mpr (fun x hx => by simpa using h x hx)

/-- One sequential key event with a registered callback, when the purge
removes nothing: fire and clear iff the window (with the new event)
reaches the required count. -/
lemma on_event_no_purge (cnt : ℕ) (tko t : ℚ) (w : List ℚ)
    (h : ∀ x ∈ w, t - x ≤ tko) :
    on_event cnt tko true t w =
      if cnt ≤ w.length + 1 then ⟨[], true⟩ else ⟨w ++ [t], false⟩ := by
  unfold on_event on_key_event check_trigger
  rw [clean_eq_self tko t w h]
  simp

/-- Invariant run of the engine over events that all lie within one
window span: the `k`-th event (0-based) fires exactly when the running
count `w.length + k + 1` is a multiple of `cnt`, and the final window
holds the running count modulo `cnt` timestamps. -/
lemma run_trigger_within (cnt : ℕ) (tko : ℚ) (hcnt : 1 ≤ cnt) :
    ∀ (ts w : List ℚ),
      (∀ x ∈ w, ∀ t ∈ ts, t - x ≤ tko) →
      (∀ t ∈ ts, ∀ s ∈ ts, s - t ≤ tko) →
      w.length < cnt →
      (run_trigger cnt tko true ts w).1 =
          (List.range ts.length).map
            (fun k => decide ((w.length + k + 1) % cnt = 0))
        ∧ (run_trigger cnt tko true ts w).2.length =
            (w.length + ts.length) % cnt := by
  intro ts
  induction ts with
  | nil =>
    intro w _ _ hlen
    exact ⟨by simp [run_trigger], by simp [run_trigger, Nat.mod_eq_of_lt hlen]⟩
  | cons t ts ih =>
    intro w h1 h2 hlen
    have hpurge : ∀ x ∈ w, t - x ≤ tko :=
      fun x hx => h1 x hx t (List.mem_cons_self t ts)
    have hstep := on_event_no_purge cnt tko t w hpurge
    have h2' : ∀ t' ∈ ts, ∀ s ∈ ts, s - t' ≤ tko :=
      fun t' ht' s hs =>
        h2 t' (List.mem_cons_of_mem t ht') s (List.mem_cons_of_mem t hs)
    have hrange : List.range (t :: ts).length =
        0 :: (List.range ts.length).map Nat.succ := by
      rw [List.length_cons, List.range_succ_eq_map]
    by_cases hfire : cnt ≤ w.length + 1
    · have hceq : w.length + 1 = cnt := by omega
      have ihr := ih []
        (fun x hx => absurd hx (List.not_mem_nil x)) h2'
        (by simp only [List.length_nil]; omega)
      have hrw : run_trigger cnt tko true (t :: ts) w =
          (true :: (run_trigger cnt tko true ts []).1,
            (run_trigger cnt tko true ts []).2) := by
        simp only [run_trigger, hstep, if_pos hfire]
      have hhead : decide ((w.length + 0 + 1) % cnt = 0) = true := by
        rw [decide_eq_true_eq, Nat.add_zero, hceq, Nat.mod_self]
      have htail :
          List.map (fun k => decide ((w.length + k + 1) % cnt = 0))
            ((List.range ts.length).map Nat.succ) =
          List.map (fun k => decide ((List.length ([] : List ℚ) + k + 1) % cnt = 0))
            (List.range ts.length) := by
        rw [List.map_map]
        apply List.map_congr_left
        intro k _
        rw [Function.comp_apply, decide_eq_decide]
        have e1 : w.length + Nat.succ k + 1 = cnt + (k + 1) := by omega
        have e2 : List.length ([] : List ℚ) + k + 1 = k + 1 := by simp
        rw [e1, e2, Nat.add_mod_left]
      constructor
      · rw [hrange]
        simp only [List.map_cons]
        rw [hhead, htail, ← ihr.1, hrw]
      · have ihr2 := ihr.2
        have e2 : List.length ([] : List ℚ) + ts.length = ts.length := by simp
        rw [e2] at ihr2
        have e : w.length + (t :: ts).length = cnt + ts.length := by
          rw [List.length_cons]; omega
        rw [e, Nat.add_mod_left, hrw]
        exact ihr2
    · have hlt : w.length + 1 < cnt := by omega
      have h1' : ∀ x ∈ w ++ [t], ∀ s ∈ ts, s - x ≤ tko := by
        intro x hx s hs
        rcases List.mem_append.mp hx with hw | hx
        · exact h1 x hw s (List.mem_cons_of_mem t hs)
        · rw [List.mem_singleton.mp hx]
          exact h2 t (List.mem_cons_self t ts) s (List.mem_cons_of_mem t hs)
      have hlen_eq : (w ++ [t]).length = w.length + 1 := by
        rw [List.length_append, List.length_singleton]
      have hlen' : (w ++ [t]).length < cnt := by
        rw [hlen_eq]; omega
      have ihr := ih (w ++ [t]) h1' h2' hlen'
      have hrw : run_trigger cnt tko true (t :: ts) w =
          (false :: (run_trigger cnt tko true ts (w ++ [t])).1,
            (run_trigger cnt tko true ts (w ++ [t])).2) := by
        simp only [run_trigger, hstep, if_neg hfire]
      have hhead : decide ((w.length + 0 + 1) % cnt = 0) = false := by
        rw [decide_eq_false_iff_not, Nat.add_zero, Nat.mod_eq_of_lt hlt]
        omega
      have htail :
          List.map (fun k => decide ((w.length + k + 1) % cnt = 0))
            ((List.range ts.length).map Nat.succ) =
          List.map (fun k => decide (((w ++ [t]).length + k + 1) % cnt = 0))
            (List.range ts.length) := by
        rw [List.map_map]
        apply List.map_congr_left
        intro k _
        rw [Function.comp_apply, decide_eq_decide, hlen_eq]
        have e1 : w.length + Nat.succ k + 1 = w.length + 1 + k + 1 := by omega
        rw [e1]
      constructor
      · rw [hrange]
        simp only [List.map_cons]
        rw [hhead, htail, ← ihr.1, hrw]
      · have ihr2 := ihr.2
        have e : w.length + (t :: ts).length = (w ++ [t]).length + ts.length := by
          rw [List.length_cons, hlen_eq]; omega
        rw [e, hrw]
        exact ihr2

/-- Counting the fires in the per-event fire pattern: exactly one fire
per full window of `cnt` events. -/
lemma count_fires_eq_div (cnt : ℕ) (N : ℕ) :
    ((List.range N).map (fun k => decide ((k + 1) % cnt = 0))).count true
      = N / cnt := by
  induction N with
  | zero => simp
  | succ n ih =>
    rw [List.range_succ, List.map_append, List.count_append, ih]
    by_cases h : cnt ∣ (n + 1)
    · have hd : decide ((n + 1) % cnt = 0) = true :=
        decide_eq_true (Nat.dvd_iff_mod_eq_zero.mp h)
      rw [Nat.succ_div, if_pos h]
      simp [hd]
    · have hd : decide ((n + 1) % cnt = 0) = false :=
        decide_eq_false (fun hc => h (Nat.dvd_iff_mod_eq_zero.mpr hc))
      rw [Nat.succ_div, if_neg h]
      simp [hd]

/-- C1: with `required_count = 3`, `window_seconds = 2` and a callback
registered, events at 0.0, 0.5, 1.0 fire exactly on the third event and
leave the window empty, and a fourth event at 1.1 does not fire and
leaves exactly one timestamp.  In general, for a stream of `N` same-kind
events that all lie within one window span, the `k`-th event (1-based)
fires exactly when `k` is a multiple of `required_count`: fewer than
`required_count` events never fire, the `required_count`-th event fires
with the window reset to empty, the total number of fires is
`N / required_count` (exactly one fire per freshly accumulated window,
so no double fire before a new window accumulates), and the final window
holds `N % required_count` timestamps. -/
theorem C1_trigger_fire_and_reset :
    (run_trigger 3 2 true [0, 1/2, 1] [] = ([false, false, true], [])
      ∧ run_trigger 3 2 true [0, 1/2, 1, 11/10] [] =
          ([false, false, true, false], [11/10]))
    ∧ ∀ (cnt : ℕ) (tko : ℚ) (ts : List ℚ), 1 ≤ cnt →
        (∀ t ∈ ts, ∀ s ∈ ts, s - t ≤ tko) →
        (run_trigger cnt tko true ts []).1 =
            (List.range ts.length).map (fun k => decide ((k + 1) % cnt = 0))
          ∧ (run_trigger cnt tko true ts []).1.count true = ts.length / cnt
          ∧ (run_trigger cnt tko true ts []).2.length = ts.length % cnt := by
  constructor
  · constructor <;>
      norm_num [run_trigger, on_event, on_key_event, clean_old_timestamps,
        check_trigger, List.filter]
  · intro cnt tko ts hcnt hspan
    have h := run_trigger_within cnt tko hcnt ts []
      (fun x hx => absurd hx (List.not_mem_nil x)) hspan
      (by simp only [List.length_nil]; omega)
    simp only [List.length_nil, Nat.zero_add] at h
    exact ⟨h.1, by rw [h.1]; exact count_fires_eq_div cnt ts.length, h.2⟩

/-- Witness for C1: the general statement applied at `cnt = 3`,
`tko = 2`, events `[0, 1/2, 1]`. -/
theorem C1_trigger_fire_and_reset_witness :
    ((1:ℕ) ≤ 3
      ∧ ∀ t ∈ ([0, 1/2, 1] : List ℚ), ∀ s ∈ ([0, 1/2, 1] : List ℚ),
          s - t ≤ 2)
    ∧ ((run_trigger 3 2 true [0, 1/2, 1] []).1 =
          (List.range ([0, 1/2, 1] : List ℚ).length).map
            (fun k => decide ((k + 1) % 3 = 0))
        ∧ (run_trigger 3 2 true [0, 1/2, 1] []).1.count true =
            ([0, 1/2, 1] : List ℚ).length / 3
        ∧ (run_trigger 3 2 true [0, 1/2, 1] []).2.length =
            ([0, 1/2, 1] : List ℚ).length % 3) := by
  have hspan : ∀ t ∈ ([0, 1/2, 1] : List ℚ), ∀ s ∈ ([0, 1/2, 1] : List ℚ),
      s - t ≤ 2 := by
    intro t ht s hs
    fin_cases ht <;> fin_cases hs <;> norm_num
  exact ⟨⟨by norm_num, hspan⟩,
    C1_trigger_fire_and_reset.2 3 2 [0, 1/2, 1] (by norm_num) hspan⟩

/-- C2 (code bug in the source): the purge inside
`_clean_old_timestamps` performs its own `time.time()` call (line 31)
instead of reusing the `current_time` read at the start of
`_on_key_press` (line 44), so a timestamp is purged when
`purge_read − t > trigger_timeout`, not when
`event_time − t > trigger_timeout`.  Evaluation at the failing input:
stored window `[0]`, timeout `2`, event-time read `2`, purge-time read
`5/2`: the code purges timestamp `0` (window becomes `[2]`), while a
purge keyed to the appended event time keeps it (window `[0, 2]`). -/
theorem C2_purge_second_clock_read :
    on_key_event 3 2 true (5/2) 2 [0] = ⟨[2], false⟩
    ∧ on_key_event 3 2 true 2 2 [0] = ⟨[0, 2], false⟩
    ∧ clean_old_timestamps 2 (5/2) [0] = []
    ∧ clean_old_timestamps 2 2 [0] = [0] := by
  refine ⟨?_, ?_, ?_, ?_⟩ <;>
    norm_num [on_key_event, clean_old_timestamps, check_trigger, List.filter]

/-- C3 counterexample: after events 0.0, 0.5, 3.0 the purge at the third
event removes BOTH 0.0 and 0.5 (3.0 − 0.5 = 2.5 > 2.0), so the window
ends as `[3]` with count 1 — not count 2 as the claim states. -/
theorem C3_counterexample :
    run_trigger 3 2 true [0, 1/2, 3] [] = ([false, false, false], [3])
    ∧ (run_trigger 3 2 true [0, 1/2, 3] []).2.length ≠ 2 := by
  have h : run_trigger 3 2 true [0, 1/2, 3] [] =
      ([false, false, false], [3]) := by
    norm_num [run_trigger, on_event, on_key_event, clean_old_timestamps,
      check_trigger, List.filter]
  refine ⟨h, ?_⟩
  rw [h]
  norm_num

/-- C3 amended: with `required_count = 3`, `window_seconds = 2`, events
at 0.0, 0.5, 3.0: processing the third event purges both 0.0 and 0.5
(both gaps exceed the window), leaving the window with count 1, and no
fire occurs.  Generally, events farther apart than the window never
accumulate across the gap: `[0, tw+ε, tw+ε+δ]` (with `ε > 0`,
`0 ≤ δ ≤ tw`) never fires and at most two effective events remain. -/
theorem C3_gap_no_accumulation :
    run_trigger 3 2 true [0, 1/2, 3] [] = ([false, false, false], [3])
    ∧ ∀ (tw ε δ : ℚ), 0 < ε → 0 ≤ δ → δ ≤ tw →
        run_trigger 3 tw true [0, tw + ε, tw + ε + δ] [] =
          ([false, false, false], [tw + ε, tw + ε + δ]) := by
  constructor
  · norm_num [run_trigger, on_event, on_key_event, clean_old_timestamps,
      check_trigger, List.filter]
  · intro tw ε δ hε hδ hδtw
    have hc1 : decide ((ε : ℚ) ≤ 0) = false := by
      rw [decide_eq_false_iff_not]
      intro hcon
      linarith
    have hc2 : decide ((δ : ℚ) ≤ tw) = true := by
      rw [decide_eq_true_eq]
      linarith
    have hc3 : decide ((tw + ε + δ : ℚ) ≤ tw + (tw + ε)) = true := by
      rw [decide_eq_true_eq]
      linarith
    simp [run_trigger, on_event, on_key_event, clean_old_timestamps,
      check_trigger, List.filter, hc1, hc2, hc3]

/-- Witness for C3 amended: the general no-accumulation statement at
`tw = 2`, `ε = 1/2`, `δ = 1/2`. -/
theorem C3_gap_no_accumulation_witness :
    ((0:ℚ) < 1/2 ∧ (0:ℚ) ≤ 1/2 ∧ (1/2:ℚ) ≤ 2)
    ∧ run_trigger 3 2 true [0, 2 + 1/2, 2 + 1/2 + 1/2] [] =
        ([false, false, false], [2 + 1/2, 2 + 1/2 + 1/2]) := by
  exact ⟨⟨by norm_num, by norm_num, by norm_num⟩,
    C3_gap_no_accumulation.2 2 (1/2) (1/2)
      (by norm_num) (by norm_num) (by norm_num)⟩

/-- C10: for a trigger kind whose callback slot is unset, reaching or
exceeding `required_count` timestamps neither fires nor clears the
window: each event yields exactly purge-then-append with `fired = false`,
and `_check_trigger` fires (equivalently, clears the window) exactly when
the count is reached AND a callback is present. -/
theorem C10_no_callback_no_fire_no_clear :
    ∀ (cnt : ℕ) (tko t : ℚ) (w : List ℚ) (hcb : Bool),
      on_event cnt tko false t w =
          ⟨clean_old_timestamps tko t w ++ [t], false⟩
        ∧ ((check_trigger cnt hcb w).fired = true ↔
            cnt ≤ w.length ∧ hcb = true)
        ∧ (check_trigger cnt hcb w).window =
            (if cnt ≤ w.length ∧ hcb = true then [] else w) := by
  intro cnt tko t w hcb
  have h1 : on_event cnt tko false t w =
      ⟨clean_old_timestamps tko t w ++ [t], false⟩ := by
    simp [on_event, on_key_event, check_trigger]
  by_cases h : cnt ≤ w.length ∧ hcb = true
  · exact ⟨h1, by simp [check_trigger, h], by simp [check_trigger, h]⟩
  · exact ⟨h1, by simp [check_trigger, h], by simp [check_trigger, h]⟩

/-- C4: with the `llm.enabled` flag off, `process_text` and
`process_image` return the absent result immediately, for every input,
configuration and environment; both are total functions into `Option`,
so no exception reaches the caller. -/
theorem C4_disabled_returns_none :
    ∀ (cfg : LLMConf) (w : World) (text img : String),
      cfg.enabled = false →
      process_text cfg w text = none ∧ process_image cfg w img = none := by
  intro cfg w text img h
  constructor
  · simp [process_text, h]
  · simp [process_image, h]

/-- Witness for C4 at the default (disabled) configuration. -/
theorem C4_disabled_returns_none_witness :
    ({} : LLMConf).enabled = false
    ∧ process_text {} worldEmpty "hello" = none
    ∧ process_image {} worldEmpty "shot.png" = none := by
  have h := C4_disabled_returns_none {} worldEmpty "hello" "shot.png" rfl
  exact ⟨rfl, h.1, h.2⟩

/-- Configuration for the C5 counterexample: an ollama base URL is
configured and the backend answers 200 with a JSON object that lacks
the `response` field. -/
def cfgC5 : LLMConf :=
  { ollama := { base_url := some "http://localhost:11434" } }

def worldC5 : World :=
  { worldEmpty with ollamaNet := fun _ _ _ => .resp 200 (some (JVal.jobj [])) }

/-- C5 counterexample: a 2xx response whose body lacks the expected
field does NOT yield the absent result — `_call_ollama` returns the
empty string (`result.get('response', '')`), so "a missing-field
response results in None returned from the adapter" is false. -/
theorem C5_counterexample :
    call_ollama cfgC5 worldC5 "m" "p" none = some (JVal.jstr "")
    ∧ call_ollama cfgC5 worldC5 "m" "p" none ≠ none := by
  have h : call_ollama cfgC5 worldC5 "m" "p" none = some (JVal.jstr "") := rfl
  refine ⟨h, ?_⟩
  rw [h]
  simp

/-- Transport error makes `_call_ollama` absent (helper shared with the
gateway-boundary conjunct). -/
lemma call_ollama_neterr (cfg : LLMConf) (w : World) (m pr : String)
    (img : Option String) (hnet : ∀ u t p, w.ollamaNet u t p = .err) :
    call_ollama cfg w m pr img = none := by
  simp only [call_ollama, hnet]
  split <;> rfl

/-- C5 amended: for `_call_ollama` and `_call_custom_api` (and hence for
`process_text` / `process_image`, which return the adapter result
unchanged): a transport error, a 4xx/5xx status (`raise_for_status`),
or a non-JSON body yields the absent result, and nothing escapes the
`try` (every function here is total into `Option`); but a 2xx response
whose dict body lacks the expected field yields the EMPTY STRING, not
absence. -/
theorem C5_failure_absence :
    ∀ (cfg : LLMConf) (w : World) (m pr : String) (img : Option String),
      ((∀ u t p, w.ollamaNet u t p = .err) →
          call_ollama cfg w m pr img = none)
      ∧ (∀ s b, 400 ≤ s → s < 600 →
          (∀ u t p, w.ollamaNet u t p = .resp s b) →
          call_ollama cfg w m pr img = none)
      ∧ ((∀ u t p, w.ollamaNet u t p = .resp 200 none) →
          call_ollama cfg w m pr img = none)
      ∧ (∀ burl, cfg.ollama.base_url = some burl →
          (∀ u t p, w.ollamaNet u t p = .resp 200 (some (JVal.jobj []))) →
          call_ollama cfg w m pr img = some (JVal.jstr ""))
      ∧ (∀ prov,
          ((∀ u t h p, w.customNet u t h p = .err) →
            call_custom_api cfg w prov m pr img = none)
          ∧ (∀ s b, 400 ≤ s → s < 600 →
              (∀ u t h p, w.customNet u t h p = .resp s b) →
              call_custom_api cfg w prov m pr img = none)
          ∧ ((∀ u t h p, w.customNet u t h p = .resp 200 none) →
              call_custom_api cfg w prov m pr img = none))
      ∧ (∀ text, cfg.enabled = true →
          cfg.text_model.provider = some "ollama" →
          pyTruthyStr cfg.text_model.model = true →
          (∀ u t p, w.ollamaNet u t p = .err) →
          process_text cfg w text = none) := by
  intro cfg w m pr img
  refine ⟨?_, ?_, ?_, ?_, ?_, ?_⟩
  · exact call_ollama_neterr cfg w m pr img
  · intro s b h4 h6 hnet
    simp only [call_ollama, hnet]
    split
    · rfl
    · rw [if_pos ⟨h4, h6⟩]
  · intro hnet
    simp only [call_ollama, hnet]
    split
    · rfl
    · rw [if_neg (by omega)]
  · intro burl hb hnet
    simp only [call_ollama, hb, hnet]
    rw [if_neg (by omega)]
    rfl
  · intro prov
    refine ⟨?_, ?_, ?_⟩
    · intro hnet
      simp only [call_custom_api, hnet]
      split <;> rfl
    · intro s b h4 h6 hnet
      simp only [call_custom_api, hnet]
      split
      · rfl
      · rw [if_pos ⟨h4, h6⟩]
    · intro hnet
      simp only [call_custom_api, hnet]
      split
      · rfl
      · rw [if_neg (by omega)]
  · intro text hen hprov hmodel hnet
    have hcall := call_ollama_neterr cfg w (cfg.text_model.model.getD "")
      ((cfg.text_model.prompt.getD "请分析以下内容：\x7bcontent\x7d").replace
        "\x7bcontent\x7d" text) none hnet
    simp [process_text, pyTruthyStr, hen, hprov, hmodel, hcall]

/-- Configuration for the C5 witness: enabled, text role on ollama. -/
def cfgW5 : LLMConf :=
  { enabled := true
    text_model := { provider := some "ollama", model := some "llama3" }
    ollama := { base_url := some "http://localhost:11434" } }

/-- Witness for C5 amended in the all-failing world: the transport-error
conjuncts and the gateway-boundary conjunct at concrete inputs. -/
theorem C5_failure_absence_witness :
    call_ollama cfgW5 worldEmpty "m" "p" none = none
    ∧ call_custom_api cfgW5 worldEmpty "qwen" "m" "p" none = none
    ∧ process_text cfgW5 worldEmpty "hi" = none := by
  have h := C5_failure_absence cfgW5 worldEmpty "m" "p" none
  exact ⟨h.1 (fun _ _ _ => rfl),
    (h.2.2.2.2.1 "qwen").1 (fun _ _ _ _ => rfl),
    h.2.2.2.2.2 "hi" rfl rfl rfl (fun _ _ _ => rfl)⟩

/-- C6: an unrecognized provider-id in a role dispatches to the generic
custom OpenAI-compatible adapter, with that provider-id used for the
provider-keyed config lookup inside `_call_custom_api`; the dispatch
never fails or raises (the custom adapter is total and degrades to
absence on incomplete config). -/
theorem C6_unknown_provider_custom_fallback :
    (∀ (cfg : LLMConf) (w : World) (text p m : String),
      cfg.enabled = true →
      cfg.text_model.provider = some p →
      cfg.text_model.model = some m →
      p ≠ "" → m ≠ "" →
      p ≠ "ollama" → p ≠ "openai" → p ≠ "claude" → p ≠ "doubao" →
      process_text cfg w text =
        call_custom_api cfg w p m
          ((cfg.text_model.prompt.getD "请分析以下内容：\x7bcontent\x7d").replace
            "\x7bcontent\x7d" text) none)
    ∧ (∀ (cfg : LLMConf) (w : World) (img p m : String),
      cfg.enabled = true →
      cfg.vision_model.provider = some p →
      cfg.vision_model.model = some m →
      p ≠ "" → m ≠ "" →
      p ≠ "ollama" → p ≠ "openai" → p ≠ "claude" → p ≠ "doubao" →
      process_image cfg w img =
        call_custom_api cfg w p m
          (cfg.vision_model.prompt.getD
            "请分析这张图片中的内容，特别是如果这是一道题目，请提供详细的解答。")
          (some img)) := by
  constructor
  · intro cfg w text p m hen hp hm hpne hmne h1 h2 h3 h4
    simp [process_text, hen, hp, hm, pyTruthyStr, hpne, hmne, h1, h2, h3, h4]
  · intro cfg w img p m hen hp hm hpne hmne h1 h2 h3 h4
    simp [process_image, hen, hp, hm, pyTruthyStr, hpne, hmne, h1, h2, h3, h4]

/-- Configuration for the C6 witness: an unrecognized provider. -/
def cfgW6 : LLMConf :=
  { enabled := true
    text_model := { provider := some "qwen", model := some "qwen-max" } }

/-- Witness for C6 at the unrecognized provider-id `qwen`. -/
theorem C6_unknown_provider_custom_fallback_witness :
    cfgW6.enabled = true ∧ ("qwen" : String) ≠ "ollama"
    ∧ process_text cfgW6 worldEmpty "hi" =
        call_custom_api cfgW6 worldEmpty "qwen" "qwen-max"
          ((cfgW6.text_model.prompt.getD "请分析以下内容：\x7bcontent\x7d").replace
            "\x7bcontent\x7d" "hi") none := by
  refine ⟨rfl, by decide, ?_⟩
  exact C6_unknown_provider_custom_fallback.1 cfgW6 worldEmpty "hi" "qwen"
    "qwen-max" rfl rfl rfl (by decide) (by decide) (by decide) (by decide)
    (by decide) (by decide)

/-- Configuration for the C7 concrete scenario: text role on a passing
provider (openai with a real-looking key), vision role on a failing one
(claude with its placeholder key). -/
def cfgC7 : LLMConf :=
  { enabled := true
    text_model := { provider := some "openai", model := some "gpt-4o" }
    vision_model := { provider := some "claude", model := some "claude-3" }
    openai := { api_key := some "sk-live-key" }
    claude := { api_key := some "your_claude_api_key" } }

/-- C7: when the gateway is enabled, the aggregate availability check is
true only if every provider referenced by the text or vision role passes
its individual check (fail-closed); concretely, with roles on P1 =
openai (passing) and P2 = claude (failing), the aggregate is false. -/
theorem C7_availability_fail_closed :
    (∀ (cfg : LLMConf) (w : World),
      check_availability cfg w = true →
      ∀ p ∈ referenced_providers cfg,
        check_provider_availability cfg w p = true)
    ∧ (check_provider_availability cfgC7 worldEmpty "openai" = true
      ∧ check_provider_availability cfgC7 worldEmpty "claude" = false
      ∧ check_availability cfgC7 worldEmpty = false) := by
  constructor
  · intro cfg w h p hp
    unfold check_availability at h
    by_cases hen : cfg.enabled = false
    · rw [if_pos hen] at h
      exact absurd h (by simp)
    · rw [if_neg hen] at h
      exact List.all_eq_true.mp h p hp
  · exact ⟨rfl, rfl, rfl⟩

/-- Configuration for the C7 witness: both roles on a passing provider. -/
def cfgW7 : LLMConf :=
  { enabled := true
    text_model := { provider := some "openai", model := some "gpt-4o" }
    vision_model := { provider := some "openai", model := some "gpt-4o" }
    openai := { api_key := some "sk-live-key" } }

/-- Witness for C7: the aggregate is true on `cfgW7` and the general
statement instantiates to the individual openai check passing. -/
theorem C7_availability_fail_closed_witness :
    check_availability cfgW7 worldEmpty = true
    ∧ check_provider_availability cfgW7 worldEmpty "openai" = true := by
  have hmem : "openai" ∈ referenced_providers cfgW7 := by decide
  exact ⟨rfl, C7_availability_fail_closed.1 cfgW7 worldEmpty rfl "openai" hmem⟩

/-- Configuration for the C8 counterexample: a placeholder-style doubao
credential. -/
def cfgC8 : LLMConf := { doubao := { api_key := some "your_doubao_api_key" } }

/-- C8 counterexample: the doubao probe accepts a placeholder credential
— with `api_key = 'your_doubao_api_key'` (and no `ARK_API_KEY` in the
environment) `_check_doubao_availability` returns `True`, so "a
placeholder credential makes the probe return false" fails for doubao
(the source has no placeholder comparison there, unlike openai and
claude, for which the analogous probe returns `False`). -/
theorem C8_counterexample :
    check_doubao_availability cfgC8 worldEmpty = true
    ∧ check_openai_availability
        { openai := { api_key := some "your_openai_api_key" } } = false := by
  exact ⟨rfl, rfl⟩

/-- C8 amended: the openai and claude probes return true exactly when a
credential is present (truthy) and differs from their literal
placeholder string; the doubao probe returns true exactly when a
credential is present at all (config key or `ARK_API_KEY` environment
variable) — it performs no placeholder comparison.  None of the three
consults the network: the openai/claude checks take no oracle, and the
doubao check reads only the environment field of the world. -/
theorem C8_hosted_vendor_probe :
    ∀ (cfg : LLMConf) (w : World),
      (check_openai_availability cfg = true ↔
        (pyTruthyStr cfg.openai.api_key = true
          ∧ cfg.openai.api_key ≠ some "your_openai_api_key"))
      ∧ (check_claude_availability cfg = true ↔
        (pyTruthyStr cfg.claude.api_key = true
          ∧ cfg.claude.api_key ≠ some "your_claude_api_key"))
      ∧ (check_doubao_availability cfg w = true ↔
        pyTruthyStr (pyOrStr cfg.doubao.api_key w.ark_api_key) = true) := by
  intro cfg w
  refine ⟨?_, ?_, ?_⟩
  · cases hB : pyTruthyStr cfg.openai.api_key <;>
      by_cases hP : cfg.openai.api_key = some "your_openai_api_key" <;>
      simp [check_openai_availability, hB, hP]
  · cases hB : pyTruthyStr cfg.claude.api_key <;>
      by_cases hP : cfg.claude.api_key = some "your_claude_api_key" <;>
      simp [check_claude_availability, hB, hP]
  · cases hB : pyTruthyStr (pyOrStr cfg.doubao.api_key w.ark_api_key) <;>
      simp [check_doubao_availability, hB]

/-- C9 counterexample: an image call whose read/encode fails produces a
payload with NO image: `_call_ollama` at `image_path = 'img.png'` with a
failing encode posts `{model, prompt, stream}` without any `images`
field, contradicting "a call with an image parameter produces a payload
containing exactly one encoded image". -/
theorem C9_counterexample :
    ollama_build_payload (fun _ => none) "m" "p" (some "img.png") =
      ⟨"m", "p", false, none⟩
    ∧ (ollama_build_payload (fun _ => none) "m" "p" (some "img.png")).images
        = none := by
  exact ⟨rfl, rfl⟩

/-- C9 amended: for the ollama, openai and doubao adapters, a call
without an image parameter produces a payload with no image field, and a
call with a (truthy) image parameter produces exactly one encoded image
when the encode succeeds — or, for doubao, when the path is an http(s)
URL passed through verbatim; when the image cannot be read/encoded the
payload degrades to text-only with no image field. -/
theorem C9_payload_image_fields :
    ∀ (enc : String → Option String) (model prompt : String),
      ((ollama_build_payload enc model prompt none).images = none)
      ∧ (∀ p b, p ≠ "" → enc p = some b →
          (ollama_build_payload enc model prompt (some p)).images = some [b])
      ∧ (∀ p, p ≠ "" → enc p = none →
          (ollama_build_payload enc model prompt (some p)).images = none)
      ∧ (messagesImageCount (openai_build_messages enc prompt none) = 0)
      ∧ (∀ p b, p ≠ "" → enc p = some b →
          messagesImageCount (openai_build_messages enc prompt (some p)) = 1)
      ∧ (∀ p, p ≠ "" → enc p = none →
          messagesImageCount (openai_build_messages enc prompt (some p)) = 0)
      ∧ (messagesImageCount (doubao_build_messages enc prompt none) = 0)
      ∧ (∀ p, p ≠ "" → p.startsWith "http://" = true →
          messagesImageCount (doubao_build_messages enc prompt (some p)) = 1)
      ∧ (∀ p b, p ≠ "" → p.startsWith "http://" = false →
          p.startsWith "https://" = false → enc p = some b →
          messagesImageCount (doubao_build_messages enc prompt (some p)) = 1)
      ∧ (∀ p, p ≠ "" → p.startsWith "http://" = false →
          p.startsWith "https://" = false → enc p = none →
          messagesImageCount (doubao_build_messages enc prompt (some p)) = 0) := by
  intro enc model prompt
  refine ⟨?_, ?_, ?_, ?_, ?_, ?_, ?_, ?_, ?_, ?_⟩
  · simp [ollama_build_payload, pyTruthyStr]
  · intro p b hp he
    simp [ollama_build_payload, pyTruthyStr, hp, he]
  · intro p hp he
    simp [ollama_build_payload, pyTruthyStr, hp, he]
  · simp [openai_build_messages, pyTruthyStr, messagesImageCount,
      MsgContent.imageCount]
  · intro p b hp he
    simp [openai_build_messages, pyTruthyStr, hp, he, messagesImageCount,
      MsgContent.imageCount, ContentBlock.isImage]
  · intro p hp he
    simp [openai_build_messages, pyTruthyStr, hp, he, messagesImageCount,
      MsgContent.imageCount]
  · simp [doubao_build_messages, pyTruthyStr, messagesImageCount,
      MsgContent.imageCount]
  · intro p hp hu
    simp [doubao_build_messages, pyTruthyStr, hp, hu, messagesImageCount,
      MsgContent.imageCount, ContentBlock.isImage]
  · intro p b hp hu1 hu2 he
    simp [doubao_build_messages, pyTruthyStr, hp, hu1, hu2, he,
      messagesImageCount, MsgContent.imageCount, ContentBlock.isImage]
  · intro p hp hu1 hu2 he
    simp [doubao_build_messages, pyTruthyStr, hp, hu1, hu2, he,
      messagesImageCount, MsgContent.imageCount]

/-- Witness for C9 amended at a concrete encoder and path. -/
theorem C9_payload_image_fields_witness :
    (("img.png" : String) ≠ ""
      ∧ (fun _ : String => some "QUJD") "img.png" = some "QUJD")
    ∧ (ollama_build_payload (fun _ => some "QUJD") "m" "p"
        (some "img.png")).images = some ["QUJD"]
    ∧ messagesImageCount
        (openai_build_messages (fun _ => some "QUJD") "p" (some "img.png")) = 1
    ∧ (ollama_build_payload (fun _ => (none : Option String)) "m" "p"
        (some "img.png")).images = none := by
  have h := C9_payload_image_fields (fun _ => some "QUJD") "m" "p"
  have h2 := C9_payload_image_fields (fun _ => (none : Option String)) "m" "p"
  exact ⟨⟨by decide, rfl⟩,
    h.2.1 "img.png" "QUJD" (by decide) rfl,
    h.2.2.2.2.1 "img.png" "QUJD" (by decide) rfl,
    h2.2.2.1 "img.png" (by decide) rfl⟩

end AAAI
